import Mathlib

/-
Verification development for the resilient multi-provider LLM access layer
of the monVOX repository (src/src/services/LLMProvider.ts).

Shallow embedding conventions:
* Text is modelled as `List Char` (`Txt`), so that the word-splitting done by
  `content.split(' ')` in the streaming simulation can be reasoned about
  directly.
* The external feature-flag service is out of scope (spec section 6); the core
  only consumes boolean `isEnabled` answers, so a `FlagState` records the
  answers for the three flags the core reads: STRICT_LOCAL_MODE, LOCAL_LLM and
  STREAMING_RESPONSES.
* Network calls (getOpenAITextResponse / getAnthropicTextResponse in
  ../api/chat-service) and the local provider's simulated inference (which
  picks a canned string via Math.random) are external effects; they are
  modelled by an `Oracle` giving, for each provider, either the returned
  content or `none` for a thrown error.
* Wall-clock timing fields (`processingTime`, `usage`) and the audit/metrics
  side channels are elided from `LLMResponse`: they are measured real time and
  fire-and-forget logging, not functional data the claims depend on.
* JavaScript `Map.get(k) || 0` is modelled by total functions with default 0;
  `Map.delete` (in recordSuccess) is modelled by resetting to the default.
* `Date.now()` is passed in explicitly as `now : Nat`; JS subtraction
  `now - last > 60000` agrees with truncated Nat subtraction because a
  negative difference and a zero difference both fail the `> 60000` test.
-/

namespace MonVox

/-- Text content, modelled as a list of characters. -/
abbrev Txt := List Char

/-- Results of the external `isEnabled` flag queries read by the core
(STRICT_LOCAL_MODE, LOCAL_LLM, STREAMING_RESPONSES). -/
structure FlagState where
  strictLocalMode : Bool
  localLLM : Bool
  streaming : Bool
deriving DecidableEq

/-- The three concrete provider variants of LLMProvider.ts. -/
inductive ProviderKind
  | openai
  | anthropic
  | local
deriving DecidableEq

/-- The `name` field of each provider class ('OpenAI', 'Anthropic', 'Local');
circuit-breaker maps are keyed by this string in the source. -/
def providerName : ProviderKind → String
  | .openai => "OpenAI"
  | .anthropic => "Anthropic"
  | .local => "Local"

/-- The `supportsStreaming` field: `true` on all three provider classes. -/
def supportsStreaming : ProviderKind → Bool := fun _ => true

/-- The default model string each provider stamps into its response
(`options?.model || default`; the `model` option is elided, so the default
is used). -/
def defaultModel : ProviderKind → String
  | .openai => "gpt-4o"
  | .anthropic => "claude-3-5-sonnet-20240620"
  | .local => "phi-3-mini"

/-- `isAvailable()` of each provider: OpenAIProvider and AnthropicProvider
return the STREAMING_RESPONSES flag; LocalLLMProvider returns the LOCAL_LLM
flag (LLMProvider.ts lines 131-134, 212-214, 301-303). -/
def isAvailable : ProviderKind → FlagState → Bool
  | .openai, fl => fl.streaming
  | .anthropic, fl => fl.streaming
  | .local, fl => fl.localLLM

/-- Generation result (LLMResponse in the source), with the wall-clock
`processingTime` and token-usage accounting elided. -/
structure LLMResponse where
  content : Txt
  model : String
  provider : String
deriving DecidableEq

/-- Outcome of the external call each provider makes when actually invoked:
the returned raw content for a successful round trip, `none` for a thrown
error. -/
abbrev Oracle := ProviderKind → Option Txt

/-- `generateResponse` of each provider, as a function of the flag state and
the external-call oracle. The remote providers forward to the chat-service
call and wrap the result with their own `name` and model; LocalLLMProvider
first throws 'Local LLM is not enabled' when the LOCAL_LLM flag is off
(LLMProvider.ts lines 228-231), otherwise wraps its (oracle-modelled)
simulated inference output. `none` models a thrown error. -/
def providerGenerate (fl : FlagState) (oracle : Oracle) :
    ProviderKind → Option LLMResponse
  | .openai => (oracle .openai).map fun c =>
      { content := c, model := defaultModel .openai, provider := providerName .openai }
  | .anthropic => (oracle .anthropic).map fun c =>
      { content := c, model := defaultModel .anthropic, provider := providerName .anthropic }
  | .local =>
      if fl.localLLM then
        (oracle .local).map fun c =>
          { content := c, model := defaultModel .local, provider := providerName .local }
      else none

/-- Generation options (LLMOptions), restricted to the two numeric fields the
defaulting policy concerns; temperature is a rational standing for the JS
number. -/
structure LLMOptions where
  maxTokens : Option Nat
  temperature : Option ℚ
deriving DecidableEq

/-- The maxTokens value actually sent, from `options?.maxTokens || 1024`
(LLMProvider.ts line 72 and 156): absent options, an absent field and the
falsy value 0 all yield the default. -/
def effectiveMaxTokens (o : Option LLMOptions) : Nat :=
  match o.bind LLMOptions.maxTokens with
  | none => 1024
  | some n => if n = 0 then 1024 else n

/-- The temperature value actually sent, from
`options?.temperature || 0.7` (LLMProvider.ts line 71 and 155): absent
options, an absent field and the falsy value 0 all yield the default. -/
def effectiveTemperature (o : Option LLMOptions) : ℚ :=
  match o.bind LLMOptions.temperature with
  | none => (7 : ℚ)/10
  | some t => if t = 0 then (7 : ℚ)/10 else t

/-- Requested provider kinds accepted by `LLMFactory.getProvider`. -/
inductive ProviderType
  | openai
  | anthropic
  | local
  | auto
deriving DecidableEq

/-- The factory's instance cache (`LLMFactory.providers : Map<string,
LLMProvider>`). Providers are stateless values, so the only information in the
map is which concrete keys are populated: the stored instance for key k is
always the kind-k provider created on first use. -/
abbrev Cache := ProviderKind → Bool

/-- The concrete-kind path of `LLMFactory.getProvider`: look up the cache,
create-and-insert on a miss, return the provider of that kind
(LLMProvider.ts lines 331-351). -/
def getProviderConcrete (cache : Cache) (k : ProviderKind) : ProviderKind × Cache :=
  if cache k then (k, cache)
  else (k, fun u => if u = k then true else cache u)

/-- `LLMFactory.getOptimalProvider` (LLMProvider.ts lines 354-368): strict
local mode wins, then the local-model flag, else the Anthropic default; each
branch goes through the concrete `getProvider` path (and hence the cache). -/
def getOptimalProvider (fl : FlagState) (cache : Cache) : ProviderKind × Cache :=
  if fl.strictLocalMode then getProviderConcrete cache .local
  else if fl.localLLM then getProviderConcrete cache .local
  else getProviderConcrete cache .anthropic

/-- `LLMFactory.getProvider` (LLMProvider.ts lines 326-352): the `auto` kind
is resolved by `getOptimalProvider` before any cache interaction; concrete
kinds go through the cache. -/
def getProvider (fl : FlagState) (cache : Cache) : ProviderType → ProviderKind × Cache
  | .auto => getOptimalProvider fl cache
  | .openai => getProviderConcrete cache .openai
  | .anthropic => getProviderConcrete cache .anthropic
  | .local => getProviderConcrete cache .local

/-- Cache-free view of the provider kind `LLMFactory.getProvider` returns;
the cache only affects instance identity, never the kind (proved in
`getProvider_fst` below). -/
def getProviderK (fl : FlagState) : ProviderType → ProviderKind
  | .auto =>
      if fl.strictLocalMode then .local
      else if fl.localLLM then .local
      else .anthropic
  | .openai => .openai
  | .anthropic => .anthropic
  | .local => .local

/-- Circuit-breaker bookkeeping of ResilientLLMService: `failureCount` and
`lastFailureTime` are Maps keyed by provider name, read with `|| 0`; they are
modelled as total functions with default 0. -/
structure ServiceState where
  failureCount : String → Nat
  lastFailureTime : String → Nat

/-- Circuit state with no recorded failures (fresh Maps). -/
def initialState : ServiceState :=
  { failureCount := fun _ => 0, lastFailureTime := fun _ => 0 }

/-- CIRCUIT_BREAKER_THRESHOLD (LLMProvider.ts line 378). -/
def CIRCUIT_BREAKER_THRESHOLD : Nat := 3

/-- CIRCUIT_BREAKER_TIMEOUT in milliseconds (LLMProvider.ts line 379). -/
def CIRCUIT_BREAKER_TIMEOUT : Nat := 60000

/-- `ResilientLLMService.shouldAttemptProvider` (lines 453-463): attempt while
below the failure threshold, otherwise only after the cooldown has elapsed
since the last failure. -/
def shouldAttemptProvider (s : ServiceState) (now : Nat) (name : String) : Bool :=
  if s.failureCount name < CIRCUIT_BREAKER_THRESHOLD then true
  else decide (CIRCUIT_BREAKER_TIMEOUT < now - s.lastFailureTime name)

/-- `ResilientLLMService.recordSuccess` (lines 465-468): reset the failure
count to 0 and delete the failure timestamp. -/
def recordSuccess (s : ServiceState) (name : String) : ServiceState :=
  { failureCount := fun n => if n = name then 0 else s.failureCount n
    lastFailureTime := fun n => if n = name then 0 else s.lastFailureTime n }

/-- `ResilientLLMService.recordFailure` (lines 470-474): increment the failure
count and stamp the failure time. -/
def recordFailure (s : ServiceState) (now : Nat) (name : String) : ServiceState :=
  { failureCount := fun n => if n = name then s.failureCount name + 1 else s.failureCount n
    lastFailureTime := fun n => if n = name then now else s.lastFailureTime n }

/-- Ambient data of one top-level dispatch: current flag answers, external
call outcomes, and the clock reading. -/
structure DispatchEnv where
  flags : FlagState
  oracle : Oracle
  now : Nat

/-- One candidate of the `generateResponse` dispatch loop (lines 416-445):
circuit check, then `isAvailable()`, then the actual call; success resets the
circuit and returns, a thrown call records a failure, a skip leaves the state
untouched. The middle component lists the providers whose `generateResponse`
was actually invoked (empty on a skip). -/
def dispatchStep (env : DispatchEnv) (s : ServiceState) (p : ProviderKind) :
    ServiceState × List ProviderKind × Option LLMResponse :=
  if shouldAttemptProvider s env.now (providerName p) then
    if isAvailable p env.flags then
      match providerGenerate env.flags env.oracle p with
      | some r => (recordSuccess s (providerName p), [p], some r)
      | none => (recordFailure s env.now (providerName p), [p], none)
    else (s, [], none)
  else (s, [], none)

/-- The dispatch loop over an ordered candidate list: stop at the first
success, otherwise accumulate circuit updates and attempts; `none` at the end
models the terminal 'All LLM providers are currently unavailable' error
(line 447). -/
def dispatchList (env : DispatchEnv) :
    ServiceState → List ProviderKind → ServiceState × List ProviderKind × Option LLMResponse
  | s, [] => (s, [], none)
  | s, p :: ps =>
    match dispatchStep env s p with
    | (s2, att, some r) => (s2, att, some r)
    | (s2, att, none) =>
      let rest := dispatchList env s2 ps
      (rest.1, att ++ rest.2.1, rest.2.2)

/-- Mutable fields of the ResilientLLMService instance. -/
structure AccessorState where
  primary : ProviderKind
  fallbacks : List ProviderKind
  circuit : ServiceState

/-- The constructor's provisional wiring (lines 388-394): primary Anthropic,
fallbacks [OpenAI], fresh circuit maps. -/
def mkService : AccessorState :=
  { primary := .anthropic, fallbacks := [.openai], circuit := initialState }

/-- `initializeProviders` (lines 397-403): re-derive primary from the factory
with kind `auto` and reset the fallback list to [Anthropic, OpenAI]. -/
def initializeProviders (fl : FlagState) (a : AccessorState) : AccessorState :=
  { a with primary := getProviderK fl .auto, fallbacks := [.anthropic, .openai] }

/-- The candidate order of a dispatch after `initializeProviders`: the
auto-resolved primary followed by the fixed fallbacks. -/
def autoCandidates (fl : FlagState) : List ProviderKind :=
  getProviderK fl .auto :: [.anthropic, .openai]

/-- `ResilientLLMService.generateResponse` (lines 408-448): re-initialize the
providers from current flags, then run the circuit-breaker dispatch over
primary followed by fallbacks. Returns the updated instance, the providers
actually attempted, and the result (`none` models the terminal error). -/
def serviceGenerate (env : DispatchEnv) (a : AccessorState) :
    AccessorState × List ProviderKind × Option LLMResponse :=
  let a1 := initializeProviders env.flags a
  let d := dispatchList env a1.circuit (a1.primary :: a1.fallbacks)
  ({ a1 with circuit := d.1 }, d.2.1, d.2.2)

/-- `getCurrentProvider` (lines 504-506). -/
def getCurrentProvider (a : AccessorState) : ProviderKind := a.primary

/-- `switchProvider` (lines 508-511): set primary to the factory's provider
for the requested kind (audit logging elided). -/
def switchProvider (fl : FlagState) (a : AccessorState) (t : ProviderType) : AccessorState :=
  { a with primary := getProviderK fl t }

/-- The concrete request kind naming a given provider, as passed to
`switchProvider` ('openai' | 'anthropic' | 'local'). -/
def typeOfKind : ProviderKind → ProviderType
  | .openai => .openai
  | .anthropic => .anthropic
  | .local => .local

/-- Observable callback events of one streaming call. -/
inductive StreamEvent
  | token (text : Txt)
  | complete (r : LLMResponse)
  | errorEvt
deriving DecidableEq

/-- The word-splitting `content.split(' ')` performed by every provider's
`streamResponse`: split on each space character, keeping empty segments, with
the empty string splitting to one empty segment, exactly as in JavaScript. -/
def splitSp : Txt → List Txt
  | [] => [[]]
  | c :: cs =>
    match splitSp cs with
    | [] => [[]]
    | w :: ws => if c = ' ' then [] :: w :: ws else (c :: w) :: ws

/-- The tail of the accumulation loop
`accumulated += (i > 0 ? ' ' : '') + words[i]`: each later word extends the
accumulator with a space and the word, and a snapshot of the accumulator is
emitted after each extension. -/
def streamLoop (acc : Txt) : List Txt → List Txt
  | [] => []
  | w :: ws => (acc ++ ' ' :: w) :: streamLoop (acc ++ ' ' :: w) ws

/-- All accumulator snapshots passed to `onToken` for a given word list:
the first word seeds the accumulator (i = 0 adds no separator), then the
loop above runs over the remaining words. -/
def streamTokens : List Txt → List Txt
  | [] => []
  | w :: ws => w :: streamLoop w ws

/-- One provider `streamResponse` call as a callback trace (LLMProvider.ts
lines 99-129, 183-210, 272-299): obtain the full result via
`generateResponse`, emit the growing accumulator word-by-word through
`onToken`, then `onComplete` with the response; any thrown error is caught
inside the provider and surfaced as a single `onError` callback. The
inter-token delays are real-time behaviour and are elided. -/
def providerStream (fl : FlagState) (oracle : Oracle) (p : ProviderKind) : List StreamEvent :=
  match providerGenerate fl oracle p with
  | some r => (streamTokens (splitSp r.content)).map .token ++ [.complete r]
  | none => [.errorEvt]

/-- `ResilientLLMService.streamResponse` (lines 476-502): re-initialize
providers, then, if the primary is available and supports streaming, run its
`streamResponse` and return — the provider's internal catch means this await
never rejects, so the accessor's own catch and the subsequent fallback block
are not reached on a provider-side failure. Only when the availability or
streaming check fails does control reach the fallback block, which calls the
full `generateResponse` dispatch and reports through `onComplete`/`onError`. -/
def serviceStream (env : DispatchEnv) (a : AccessorState) :
    AccessorState × List StreamEvent :=
  let a1 := initializeProviders env.flags a
  if isAvailable a1.primary env.flags && supportsStreaming a1.primary then
    (a1, providerStream env.flags env.oracle a1.primary)
  else
    let g := serviceGenerate env a1
    match g.2.2 with
    | some r => (g.1, [.complete r])
    | none => (g.1, [.errorEvt])

/-- The texts delivered to `onToken`, in order, within a callback trace. -/
def tokenTexts : List StreamEvent → List Txt
  | [] => []
  | .token t :: es => t :: tokenTexts es
  | .complete _ :: es => tokenTexts es
  | .errorEvt :: es => tokenTexts es

/-- Whether an event is a terminal callback (`onComplete` or `onError`). -/
def isTerminal : StreamEvent → Bool
  | .token _ => false
  | .complete _ => true
  | .errorEvt => true

/-- Rejoining a word list with single spaces (the inverse reading of
`splitSp`); the final accumulator of the streaming loop has this shape. -/
def joinSp : List Txt → Txt
  | [] => []
  | [w] => w
  | w :: w2 :: ws => w ++ ' ' :: joinSp (w2 :: ws)

/-- Ordering relation on successive `onToken` texts: strictly growing length
and the earlier text is a prefix of the later one (the accumulator only
grows). -/
def growsTo (a b : Txt) : Prop := a.length < b.length ∧ a <+: b

instance : IsTrans Txt growsTo :=
  ⟨fun _ _ _ h1 h2 => ⟨Nat.lt_trans h1.1 h2.1, h1.2.trans h2.2⟩⟩

/-! Helper lemmas about the factory and the dispatch loop. -/

theorem getProviderConcrete_fst (cache : Cache) (k : ProviderKind) :
    (getProviderConcrete cache k).1 = k := by
  unfold getProviderConcrete
  split <;> rfl

theorem getProvider_fst (fl : FlagState) (cache : Cache) (t : ProviderType) :
    (getProvider fl cache t).1 = getProviderK fl t := by
  cases t <;>
    simp only [getProvider, getOptimalProvider, getProviderK, getProviderConcrete_fst]
  split
  · exact getProviderConcrete_fst ..
  · split <;> exact getProviderConcrete_fst ..

theorem dispatchStep_skip_circuit {env : DispatchEnv} {s : ServiceState} {p : ProviderKind}
    (h : shouldAttemptProvider s env.now (providerName p) = false) :
    dispatchStep env s p = (s, [], none) := by
  simp [dispatchStep, h]

theorem dispatchStep_skip_unavailable {env : DispatchEnv} {s : ServiceState} {p : ProviderKind}
    (h : isAvailable p env.flags = false) :
    dispatchStep env s p = (s, [], none) := by
  unfold dispatchStep
  split
  · rw [h]
    simp
  · rfl

theorem dispatchStep_success {env : DispatchEnv} {s : ServiceState} {p : ProviderKind}
    {r : LLMResponse}
    (ha : shouldAttemptProvider s env.now (providerName p) = true)
    (hv : isAvailable p env.flags = true)
    (hg : providerGenerate env.flags env.oracle p = some r) :
    dispatchStep env s p = (recordSuccess s (providerName p), [p], some r) := by
  simp [dispatchStep, ha, hv, hg]

theorem dispatchStep_failure {env : DispatchEnv} {s : ServiceState} {p : ProviderKind}
    (ha : shouldAttemptProvider s env.now (providerName p) = true)
    (hv : isAvailable p env.flags = true)
    (hg : providerGenerate env.flags env.oracle p = none) :
    dispatchStep env s p = (recordFailure s env.now (providerName p), [p], none) := by
  simp [dispatchStep, ha, hv, hg]

/-- The providers actually attempted are an ordered sub-selection of the
candidate list: dispatch never attempts outside the list, never reorders, and
never re-attempts beyond the occurrences the list itself contains. -/
theorem dispatchList_attempts_sublist (env : DispatchEnv) :
    ∀ (l : List ProviderKind) (s : ServiceState),
      List.Sublist (dispatchList env s l).2.1 l := by
  intro l
  induction l with
  | nil => intro s; simp [dispatchList]
  | cons p ps ih =>
    intro s
    by_cases ha : shouldAttemptProvider s env.now (providerName p) = true
    · by_cases hv : isAvailable p env.flags = true
      · cases hg : providerGenerate env.flags env.oracle p with
        | some r =>
          simp [dispatchList, dispatchStep_success ha hv hg]
        | none =>
          simp only [dispatchList, dispatchStep_failure ha hv hg]
          exact List.Sublist.cons₂ p (ih _)
      · simp only [dispatchList,
          dispatchStep_skip_unavailable (Bool.not_eq_true _ ▸ hv)]
        exact List.Sublist.cons p (ih _)
    · simp only [dispatchList,
        dispatchStep_skip_circuit (Bool.not_eq_true _ ▸ ha)]
      exact List.Sublist.cons p (ih _)

/-- A successful dispatch result comes from an actual `generateResponse`
success of some provider in the candidate list. -/
theorem dispatchList_success_mem (env : DispatchEnv) :
    ∀ (l : List ProviderKind) (s : ServiceState) (r : LLMResponse),
      (dispatchList env s l).2.2 = some r →
      ∃ p ∈ l, providerGenerate env.flags env.oracle p = some r := by
  intro l
  induction l with
  | nil => intro s r h; simp [dispatchList] at h
  | cons p ps ih =>
    intro s r h
    by_cases ha : shouldAttemptProvider s env.now (providerName p) = true
    · by_cases hv : isAvailable p env.flags = true
      · cases hg : providerGenerate env.flags env.oracle p with
        | some r2 =>
          simp [dispatchList, dispatchStep_success ha hv hg] at h
          exact ⟨p, List.mem_cons_self p ps, h ▸ hg⟩
        | none =>
          simp only [dispatchList, dispatchStep_failure ha hv hg] at h
          obtain ⟨q, hq, hg2⟩ := ih _ _ h
          exact ⟨q, List.mem_cons_of_mem p hq, hg2⟩
      · simp only [dispatchList,
          dispatchStep_skip_unavailable (Bool.not_eq_true _ ▸ hv)] at h
        obtain ⟨q, hq, hg2⟩ := ih _ _ h
        exact ⟨q, List.mem_cons_of_mem p hq, hg2⟩
    · simp only [dispatchList,
        dispatchStep_skip_circuit (Bool.not_eq_true _ ▸ ha)] at h
      obtain ⟨q, hq, hg2⟩ := ih _ _ h
      exact ⟨q, List.mem_cons_of_mem p hq, hg2⟩

/-- The three provider names are pairwise distinct, so the name-keyed circuit
maps identify providers uniquely. -/
theorem providerName_inj : ∀ p q : ProviderKind, providerName p = providerName q → p = q := by
  intro p q h
  cases p <;> cases q <;> first | rfl | exact absurd h (by decide)

/-- Recording a failure for one provider name leaves the circuit check of
every other name unchanged. -/
theorem shouldAttempt_recordFailure_ne {s : ServiceState} {now now2 : Nat}
    {n1 n2 : String} (h : n1 ≠ n2) :
    shouldAttemptProvider (recordFailure s now2 n2) now n1 =
      shouldAttemptProvider s now n1 := by
  simp [shouldAttemptProvider, recordFailure, h]

/-- If every candidate is circuit-skipped (its circuit check fails at the
state the dispatch starts from), unavailable, or would fail when called, the
dispatch exhausts the list and ends in the terminal error (`none`). A name
whose circuit check fails at the initial state stays blocked for the whole
dispatch: skips do not change the state, failures of other names do not touch
it, and a successful or failed attempt of the same name would contradict the
failed check, since the check depends only on the name. -/
theorem dispatchList_none_of_all_skipped_or_fail (env : DispatchEnv) :
    ∀ (l : List ProviderKind) (s : ServiceState),
      (∀ p ∈ l, shouldAttemptProvider s env.now (providerName p) = false ∨
        isAvailable p env.flags = false ∨
        providerGenerate env.flags env.oracle p = none) →
      (dispatchList env s l).2.2 = none := by
  intro l
  induction l with
  | nil => intro s _; simp [dispatchList]
  | cons q ps ih =>
    intro s hall
    by_cases ha : shouldAttemptProvider s env.now (providerName q) = true
    · by_cases hv : isAvailable q env.flags = true
      · have hg : providerGenerate env.flags env.oracle q = none := by
          rcases hall q (List.mem_cons_self q ps) with hbad | hbad | hbad
          · rw [ha] at hbad; cases hbad
          · rw [hv] at hbad; cases hbad
          · exact hbad
        simp only [dispatchList, dispatchStep_failure ha hv hg]
        refine ih _ ?_
        intro p hp
        rcases hall p (List.mem_cons_of_mem q hp) with hbad | hbad | hbad
        · by_cases hn : providerName p = providerName q
          · have hpq : p = q := providerName_inj p q hn
            subst hpq
            exact Or.inr (Or.inr hg)
          · exact Or.inl ((shouldAttempt_recordFailure_ne hn).trans hbad)
        · exact Or.inr (Or.inl hbad)
        · exact Or.inr (Or.inr hbad)
      · simp only [dispatchList,
          dispatchStep_skip_unavailable (Bool.not_eq_true _ ▸ hv)]
        exact ih _ fun p hp => hall p (List.mem_cons_of_mem q hp)
    · simp only [dispatchList,
        dispatchStep_skip_circuit (Bool.not_eq_true _ ▸ ha)]
      exact ih _ fun p hp => hall p (List.mem_cons_of_mem q hp)

/-- Every provider's `generateResponse` stamps its own name into the
`provider` field of a successful response. -/
theorem providerGenerate_provider {fl : FlagState} {oracle : Oracle}
    {p : ProviderKind} {r : LLMResponse}
    (h : providerGenerate fl oracle p = some r) :
    r.provider = providerName p := by
  cases p <;> simp only [providerGenerate] at h
  · rw [Option.map_eq_some'] at h
    obtain ⟨c, _, hc⟩ := h
    rw [← hc]
  · rw [Option.map_eq_some'] at h
    obtain ⟨c, _, hc⟩ := h
    rw [← hc]
  · by_cases hfl : fl.localLLM = true
    · simp only [hfl, if_true, Option.map_eq_some'] at h
      obtain ⟨c, _, hc⟩ := h
      rw [← hc]
    · simp [hfl] at h

/-! Helper lemmas about the streaming simulation. -/

theorem streamLoop_chain (ws : List Txt) :
    ∀ acc : Txt, List.Chain growsTo acc (streamLoop acc ws) := by
  induction ws with
  | nil => intro acc; exact List.Chain.nil
  | cons w ws ih =>
    intro acc
    refine List.Chain.cons ⟨?_, ⟨' ' :: w, rfl⟩⟩ (ih _)
    simp [Nat.lt_succ_of_le, Nat.le_add_right]

theorem streamTokens_pairwise (ws : List Txt) :
    List.Pairwise growsTo (streamTokens ws) := by
  cases ws with
  | nil => exact List.Pairwise.nil
  | cons w ws => exact List.chain_iff_pairwise.mp (streamLoop_chain ws w)

theorem joinSp_cons_append (a b : Txt) (ws : List Txt) :
    joinSp ((a ++ ' ' :: b) :: ws) = a ++ ' ' :: joinSp (b :: ws) := by
  cases ws with
  | nil => rfl
  | cons w2 ws2 => simp [joinSp, List.append_assoc]

theorem streamLoop_getLast? (ws : List Txt) :
    ∀ acc : Txt, (acc :: streamLoop acc ws).getLast? = some (joinSp (acc :: ws)) := by
  induction ws with
  | nil => intro acc; rfl
  | cons w2 ws2 ih =>
    intro acc
    rw [streamLoop, List.getLast?_cons_cons, ih, joinSp_cons_append]
    rfl

theorem splitSp_ne_nil (l : Txt) : splitSp l ≠ [] := by
  cases l with
  | nil => simp [splitSp]
  | cons c cs =>
    unfold splitSp
    split
    · simp
    · split <;> simp

theorem joinSp_splitSp (l : Txt) : joinSp (splitSp l) = l := by
  induction l with
  | nil => rfl
  | cons c cs ih =>
    unfold splitSp
    cases h : splitSp cs with
    | nil => exact absurd h (splitSp_ne_nil cs)
    | cons w ws =>
      rw [h] at ih
      by_cases hc : c = ' '
      · subst hc
        simp only [if_pos rfl, joinSp]
        rw [ih]
        rfl
      · simp only [if_neg hc]
        cases ws with
        | nil =>
          simp only [joinSp] at ih ⊢
          rw [ih]
        | cons w2 ws2 =>
          simp only [joinSp, List.cons_append] at ih ⊢
          rw [← ih]

theorem tokenTexts_map_token (ts : List Txt) :
    tokenTexts (ts.map StreamEvent.token) = ts := by
  induction ts with
  | nil => rfl
  | cons t ts ih => simp [tokenTexts, ih]

theorem tokenTexts_concat_complete (xs : List StreamEvent) (r : LLMResponse) :
    tokenTexts (xs ++ [StreamEvent.complete r]) = tokenTexts xs := by
  induction xs with
  | nil => rfl
  | cons e es ih => cases e <;> simp [tokenTexts, ih]

/-! Claim theorems. -/

/-- Claim C1: the dispatch attempts a provider only when its circuit is
closed or cooled down. With at least CIRCUIT_BREAKER_THRESHOLD (3) recorded
consecutive failures, the circuit check passes exactly when more than
CIRCUIT_BREAKER_TIMEOUT (60000) ms have elapsed since the last recorded
failure; if the one attempt allowed in that cooled-down state fails at time
`now`, the check is again blocked until another 60000 ms elapse, regardless
of the accumulated count; and a candidate whose circuit check fails is
skipped by the dispatch step with no attempt and no state change. -/
theorem claim_C1_circuit_breaker (s : ServiceState) (now now2 : Nat) (name : String)
    (h : CIRCUIT_BREAKER_THRESHOLD ≤ s.failureCount name) :
    (shouldAttemptProvider s now name = true ↔
      CIRCUIT_BREAKER_TIMEOUT < now - s.lastFailureTime name)
    ∧ (shouldAttemptProvider (recordFailure s now name) now2 name = true ↔
      CIRCUIT_BREAKER_TIMEOUT < now2 - now)
    ∧ ∀ (env : DispatchEnv) (s2 : ServiceState) (p : ProviderKind),
        shouldAttemptProvider s2 env.now (providerName p) = false →
        dispatchStep env s2 p = (s2, [], none) := by
  have h1 : ¬ s.failureCount name < CIRCUIT_BREAKER_THRESHOLD := Nat.not_lt.mpr h
  refine ⟨?_, ?_, ?_⟩
  · unfold shouldAttemptProvider
    rw [if_neg h1]
    exact decide_eq_true_iff
  · have hcount : (recordFailure s now name).failureCount name = s.failureCount name + 1 := by
      simp [recordFailure]
    have htime : (recordFailure s now name).lastFailureTime name = now := by
      simp [recordFailure]
    have h2 : ¬ (recordFailure s now name).failureCount name < CIRCUIT_BREAKER_THRESHOLD := by
      rw [hcount]
      unfold CIRCUIT_BREAKER_THRESHOLD at h ⊢
      omega
    unfold shouldAttemptProvider
    rw [if_neg h2, htime]
    exact decide_eq_true_iff
  · intro env s2 p hskip
    exact dispatchStep_skip_circuit hskip

/-- Claim C1 witness: a provider with 3 recorded failures at time 1000,
queried at time 70000 (cooldown elapsed) and, after the half-open attempt
fails at 70000, re-queried at 80000 (cooldown not elapsed again). -/
theorem claim_C1_circuit_breaker_witness :
    ((shouldAttemptProvider ⟨fun _ => 3, fun _ => 1000⟩ 70000 "Anthropic" = true ↔
      CIRCUIT_BREAKER_TIMEOUT < 70000 - (⟨fun _ => 3, fun _ => 1000⟩ : ServiceState).lastFailureTime "Anthropic")
    ∧ (shouldAttemptProvider
        (recordFailure ⟨fun _ => 3, fun _ => 1000⟩ 70000 "Anthropic") 80000 "Anthropic" = true ↔
      CIRCUIT_BREAKER_TIMEOUT < 80000 - 70000)
    ∧ ∀ (env : DispatchEnv) (s2 : ServiceState) (p : ProviderKind),
        shouldAttemptProvider s2 env.now (providerName p) = false →
        dispatchStep env s2 p = (s2, [], none)) :=
  claim_C1_circuit_breaker ⟨fun _ => 3, fun _ => 1000⟩ 70000 80000 "Anthropic" (by decide)

/-- Claim C2 counterexample: with strict-local mode and the local-model flag
both off, `auto` resolves the primary to Anthropic, which also heads the
fallback list; when its call fails, the dispatch attempts Anthropic a second
time as a fallback within the same `generateResponse` call, refuting the
claim that no provider is attempted more than once. -/
theorem counterexample_C2_double_attempt :
    (serviceGenerate
        { flags := ⟨false, false, true⟩
          oracle := fun p => if p = .openai then some ['o', 'k'] else none
          now := 100000 }
        mkService).2.1 = [.anthropic, .anthropic, .openai]
    ∧ 1 < ((serviceGenerate
        { flags := ⟨false, false, true⟩
          oracle := fun p => if p = .openai then some ['o', 'k'] else none
          now := 100000 }
        mkService).2.1).count ProviderKind.anthropic := by
  exact ⟨by decide, by decide⟩

/-- Claim C2 (amended): the ordered candidate list of every
`generateResponse` call is the auto-resolved primary followed by the fixed
fallbacks [Anthropic, OpenAI], and the providers actually attempted are an
ordered sub-selection of that list; the code does not deduplicate, so a
provider appearing both as primary and in the fallback list can be attempted
twice within a single call. -/
theorem claim_C2_candidate_order :
    (∀ (env : DispatchEnv) (a : AccessorState),
      List.Sublist (serviceGenerate env a).2.1
        (getProviderK env.flags .auto :: [.anthropic, .openai]))
    ∧ ∃ env : DispatchEnv,
        1 < ((serviceGenerate env mkService).2.1).count ProviderKind.anthropic := by
  constructor
  · intro env a
    exact dispatchList_attempts_sublist env _ _
  · refine ⟨{ flags := ⟨false, false, true⟩
              oracle := fun p => if p = .openai then some ['o', 'k'] else none
              now := 100000 }, ?_⟩
    decide

/-- Claim C3: evaluated at an input where the primary (Anthropic) is
available and supports streaming but its underlying call throws, while the
OpenAI fallback would succeed: the provider surfaces the failure as a single
`onError` callback, and the accessor's streaming entry point returns without
running the fallback `generateResponse` dispatch — no `onComplete` ever
fires — even though that dispatch, run on its own from the same state,
succeeds via OpenAI. The provider-internal catch means the accessor's await
never rejects, so its fallback block is unreachable on a provider-side
streaming failure, contradicting the documented fallback intent. -/
theorem claim_C3_stream_failure_no_fallback :
    (serviceStream
        { flags := ⟨false, false, true⟩
          oracle := fun p => if p = .openai then some ['o', 'k'] else none
          now := 100000 }
        mkService).2 = [StreamEvent.errorEvt]
    ∧ (serviceGenerate
        { flags := ⟨false, false, true⟩
          oracle := fun p => if p = .openai then some ['o', 'k'] else none
          now := 100000 }
        mkService).2.2 =
      some { content := ['o', 'k'], model := "gpt-4o", provider := "OpenAI" } := by
  exact ⟨by decide, by decide⟩

/-- Claim C4: when every candidate is either skipped — circuit open at the
state the call starts from, or unavailable — or fails when called,
`generateResponse` ends in the terminal all-providers-unavailable error and
the attempted providers never go beyond the candidate list; in the scenario
where the local primary and both remote fallbacks are all attempted and each
fails once, every provider's consecutive-failure count becomes 1. -/
theorem claim_C4_exhaustion (env : DispatchEnv) (a : AccessorState)
    (h : ∀ p ∈ getProviderK env.flags .auto :: [.anthropic, .openai],
      shouldAttemptProvider a.circuit env.now (providerName p) = false ∨
        isAvailable p env.flags = false ∨
        providerGenerate env.flags env.oracle p = none) :
    ((serviceGenerate env a).2.2 = none
      ∧ List.Sublist (serviceGenerate env a).2.1
          (getProviderK env.flags .auto :: [.anthropic, .openai]))
    ∧ ((serviceGenerate
          { flags := ⟨false, true, true⟩, oracle := fun _ => none, now := 100000 }
          mkService).2.2 = none
      ∧ (serviceGenerate
          { flags := ⟨false, true, true⟩, oracle := fun _ => none, now := 100000 }
          mkService).2.1 = [.local, .anthropic, .openai]
      ∧ ((serviceGenerate
          { flags := ⟨false, true, true⟩, oracle := fun _ => none, now := 100000 }
          mkService).1).circuit.failureCount "Local" = 1
      ∧ ((serviceGenerate
          { flags := ⟨false, true, true⟩, oracle := fun _ => none, now := 100000 }
          mkService).1).circuit.failureCount "Anthropic" = 1
      ∧ ((serviceGenerate
          { flags := ⟨false, true, true⟩, oracle := fun _ => none, now := 100000 }
          mkService).1).circuit.failureCount "OpenAI" = 1) := by
  refine ⟨⟨?_, ?_⟩, by decide, by decide, by decide, by decide, by decide⟩
  · exact dispatchList_none_of_all_skipped_or_fail env _ _ h
  · exact dispatchList_attempts_sublist env _ _

/-- Claim C4 witness: the Anthropic primary is circuit-open (3 failures, last
one just now) even though its call would succeed, the OpenAI fallback is
available but its call fails, and the local provider never enters the list
(local flag off) — every candidate is skipped or fails, so the call ends in
the terminal error. -/
theorem claim_C4_exhaustion_witness :
    (((serviceGenerate
        { flags := ⟨false, false, true⟩
          oracle := fun p => if p = .anthropic then some ['h', 'i'] else none
          now := 100000 }
        ⟨.anthropic, [.openai],
          ⟨fun n => if n = "Anthropic" then 3 else 0,
           fun n => if n = "Anthropic" then 100000 else 0⟩⟩).2.2 = none
      ∧ List.Sublist (serviceGenerate
          { flags := ⟨false, false, true⟩
            oracle := fun p => if p = .anthropic then some ['h', 'i'] else none
            now := 100000 }
          ⟨.anthropic, [.openai],
            ⟨fun n => if n = "Anthropic" then 3 else 0,
             fun n => if n = "Anthropic" then 100000 else 0⟩⟩).2.1
          (getProviderK ⟨false, false, true⟩ .auto :: [.anthropic, .openai]))
    ∧ ((serviceGenerate
          { flags := ⟨false, true, true⟩, oracle := fun _ => none, now := 100000 }
          mkService).2.2 = none
      ∧ (serviceGenerate
          { flags := ⟨false, true, true⟩, oracle := fun _ => none, now := 100000 }
          mkService).2.1 = [.local, .anthropic, .openai]
      ∧ ((serviceGenerate
          { flags := ⟨false, true, true⟩, oracle := fun _ => none, now := 100000 }
          mkService).1).circuit.failureCount "Local" = 1
      ∧ ((serviceGenerate
          { flags := ⟨false, true, true⟩, oracle := fun _ => none, now := 100000 }
          mkService).1).circuit.failureCount "Anthropic" = 1
      ∧ ((serviceGenerate
          { flags := ⟨false, true, true⟩, oracle := fun _ => none, now := 100000 }
          mkService).1).circuit.failureCount "OpenAI" = 1)) :=
  claim_C4_exhaustion
    { flags := ⟨false, false, true⟩
      oracle := fun p => if p = .anthropic then some ['h', 'i'] else none
      now := 100000 }
    ⟨.anthropic, [.openai],
      ⟨fun n => if n = "Anthropic" then 3 else 0,
       fun n => if n = "Anthropic" then 100000 else 0⟩⟩
    (by decide)

/-- Claim C5: resolving the provider kind `auto` follows the priority list
top-to-bottom with first match winning — strict local mode yields the local
provider regardless of other flags, otherwise the local-model flag yields the
local provider, otherwise the fixed Anthropic default — and the resolved kind
is independent of the factory's instance cache: it is recomputed from the
flag state supplied at each request, never memoized. -/
theorem claim_C5_auto_resolution (fl : FlagState) (cache : Cache) :
    (fl.strictLocalMode = true → (getProvider fl cache .auto).1 = .local)
    ∧ (fl.strictLocalMode = false → fl.localLLM = true →
        (getProvider fl cache .auto).1 = .local)
    ∧ (fl.strictLocalMode = false → fl.localLLM = false →
        (getProvider fl cache .auto).1 = .anthropic)
    ∧ (getProvider fl cache .auto).1 = getProviderK fl .auto := by
  refine ⟨?_, ?_, ?_, getProvider_fst fl cache .auto⟩
  · intro hs
    rw [getProvider_fst]
    simp [getProviderK, hs]
  · intro hs hl
    rw [getProvider_fst]
    simp [getProviderK, hs, hl]
  · intro hs hl
    rw [getProvider_fst]
    simp [getProviderK, hs, hl]

/-- Claim C5 witness: with strict local mode enabled (and the other flags
off) the `auto` resolution against an empty instance cache yields the local
provider. -/
theorem claim_C5_auto_resolution_witness :
    (getProvider ⟨true, false, false⟩ (fun _ => false) .auto).1 = ProviderKind.local :=
  (claim_C5_auto_resolution ⟨true, false, false⟩ (fun _ => false)).1 rfl

/-- Claim C6: a candidate that passes the circuit check but reports
unavailable is passed over with no attempt, no failure-count increment and no
failure timestamp; in particular, with strict local mode on and the
local-model flag off, the disabled local primary is skipped without
circuit-state penalty and the call succeeds via the first available fallback
(Anthropic). -/
theorem claim_C6_unavailable_no_penalty (env : DispatchEnv) (s : ServiceState)
    (p : ProviderKind) (h : isAvailable p env.flags = false) :
    dispatchStep env s p = (s, [], none)
    ∧ ((serviceGenerate
          { flags := ⟨true, false, true⟩
            oracle := fun p2 => if p2 = .anthropic then some ['h', 'i'] else none
            now := 100000 }
          mkService).2.1 = [.anthropic]
      ∧ (serviceGenerate
          { flags := ⟨true, false, true⟩
            oracle := fun p2 => if p2 = .anthropic then some ['h', 'i'] else none
            now := 100000 }
          mkService).2.2 =
        some { content := ['h', 'i'], model := "claude-3-5-sonnet-20240620"
               provider := "Anthropic" }
      ∧ ((serviceGenerate
          { flags := ⟨true, false, true⟩
            oracle := fun p2 => if p2 = .anthropic then some ['h', 'i'] else none
            now := 100000 }
          mkService).1).circuit.failureCount "Local" = 0
      ∧ ((serviceGenerate
          { flags := ⟨true, false, true⟩
            oracle := fun p2 => if p2 = .anthropic then some ['h', 'i'] else none
            now := 100000 }
          mkService).1).circuit.lastFailureTime "Local" = 0) := by
  refine ⟨dispatchStep_skip_unavailable h, by decide, by decide, by decide, by decide⟩

/-- Claim C6 witness: the local provider with its flag off is skipped by a
dispatch step with no state change, and the strict-local scenario holds. -/
theorem claim_C6_unavailable_no_penalty_witness :
    dispatchStep
      { flags := ⟨true, false, true⟩
        oracle := fun p2 => if p2 = .anthropic then some ['h', 'i'] else none
        now := 100000 }
      initialState .local = (initialState, [], none)
    ∧ ((serviceGenerate
          { flags := ⟨true, false, true⟩
            oracle := fun p2 => if p2 = .anthropic then some ['h', 'i'] else none
            now := 100000 }
          mkService).2.1 = [.anthropic]
      ∧ (serviceGenerate
          { flags := ⟨true, false, true⟩
            oracle := fun p2 => if p2 = .anthropic then some ['h', 'i'] else none
            now := 100000 }
          mkService).2.2 =
        some { content := ['h', 'i'], model := "claude-3-5-sonnet-20240620"
               provider := "Anthropic" }
      ∧ ((serviceGenerate
          { flags := ⟨true, false, true⟩
            oracle := fun p2 => if p2 = .anthropic then some ['h', 'i'] else none
            now := 100000 }
          mkService).1).circuit.failureCount "Local" = 0
      ∧ ((serviceGenerate
          { flags := ⟨true, false, true⟩
            oracle := fun p2 => if p2 = .anthropic then some ['h', 'i'] else none
            now := 100000 }
          mkService).1).circuit.lastFailureTime "Local" = 0) :=
  claim_C6_unavailable_no_penalty
    { flags := ⟨true, false, true⟩
      oracle := fun p2 => if p2 = .anthropic then some ['h', 'i'] else none
      now := 100000 }
    initialState .local (by decide)

/-- Claim C7: within one provider stream call, the token callbacks receive
the full accumulated text so far — pairwise, every earlier token text is a
proper prefix of every later one, so text length is strictly increasing, and
on success the last token text is exactly the response content — and exactly
one terminal callback fires (`onComplete` on success, `onError` on failure),
always positioned after every token callback. -/
theorem claim_C7_stream_contract (fl : FlagState) (oracle : Oracle) (p : ProviderKind) :
    List.Pairwise growsTo (tokenTexts (providerStream fl oracle p))
    ∧ (∀ r, providerGenerate fl oracle p = some r →
        (tokenTexts (providerStream fl oracle p)).getLast? = some r.content)
    ∧ (∃ e, (providerStream fl oracle p).getLast? = some e ∧ isTerminal e = true)
    ∧ (∀ e ∈ (providerStream fl oracle p).dropLast, isTerminal e = false) := by
  cases hg : providerGenerate fl oracle p with
  | none =>
    refine ⟨?_, ?_, ?_, ?_⟩
    · simp [providerStream, hg, tokenTexts]
    · intro r hr
      simp at hr
    · exact ⟨.errorEvt, by simp [providerStream, hg], rfl⟩
    · simp [providerStream, hg]
  | some r =>
    have hts : tokenTexts (providerStream fl oracle p) = streamTokens (splitSp r.content) := by
      simp [providerStream, hg, tokenTexts_concat_complete, tokenTexts_map_token]
    refine ⟨?_, ?_, ?_, ?_⟩
    · rw [hts]
      exact streamTokens_pairwise _
    · intro r2 hr2
      injection hr2 with hr2
      subst hr2
      rw [hts]
      cases hsp : splitSp r.content with
      | nil => exact absurd hsp (splitSp_ne_nil _)
      | cons w ws =>
        show (streamTokens (w :: ws)).getLast? = some r.content
        unfold streamTokens
        rw [streamLoop_getLast?, ← hsp, joinSp_splitSp]
    · refine ⟨.complete r, ?_, rfl⟩
      simp only [providerStream, hg]
      exact List.getLast?_concat _
    · simp only [providerStream, hg, List.dropLast_concat]
      intro e he
      obtain ⟨t, _, rfl⟩ := List.mem_map.mp he
      rfl

/-- Claim C7 witness: streaming the Anthropic provider when the external call
returns the two-word content 'a b': the last token text delivered is the full
content. -/
theorem claim_C7_stream_contract_witness :
    (tokenTexts (providerStream ⟨false, false, true⟩
        (fun _ => some ['a', ' ', 'b']) .anthropic)).getLast? =
      some (['a', ' ', 'b'] : Txt) :=
  (claim_C7_stream_contract ⟨false, false, true⟩
      (fun _ => some ['a', ' ', 'b']) .anthropic).2.1
    { content := ['a', ' ', 'b'], model := "claude-3-5-sonnet-20240620"
      provider := "Anthropic" }
    (by decide)

/-- Claim C8 counterexample: `switchProvider('openai')` pins the primary to
OpenAI, but the very next `generateResponse` call re-runs
`initializeProviders`, which overwrites the primary with the `auto`
resolution (the local provider here, strict local mode being on) — so the pin
does not bypass `auto` resolution for subsequent requests. -/
theorem counterexample_C8_pin_not_persistent :
    getCurrentProvider (switchProvider ⟨true, false, true⟩ mkService .openai) = .openai
    ∧ getCurrentProvider
        ((serviceGenerate
            { flags := ⟨true, false, true⟩
              oracle := fun p2 => if p2 = .anthropic then some ['h', 'i'] else none
              now := 100000 }
            (switchProvider ⟨true, false, true⟩ mkService .openai)).1) = .local
    ∧ ProviderKind.local ≠ ProviderKind.openai := by
  exact ⟨by decide, by decide, by decide⟩

/-- Claim C8 (amended): `switchProvider(kind)` with a concrete kind pins the
primary to that concrete provider and `getCurrentProvider` returns it, but
only until the next `generateResponse` or `streamResponse` call: each such
call re-derives the primary via `auto` resolution from the flags current at
that moment, so the pin does not survive any subsequent request. -/
theorem claim_C8_switch_until_next_request (fl fl2 : FlagState) (a : AccessorState)
    (k : ProviderKind) (oracle : Oracle) (now : Nat) :
    getCurrentProvider (switchProvider fl a (typeOfKind k)) = k
    ∧ getCurrentProvider
        ((serviceGenerate ⟨fl2, oracle, now⟩ (switchProvider fl a (typeOfKind k))).1)
      = getProviderK fl2 .auto
    ∧ getCurrentProvider
        ((serviceStream ⟨fl2, oracle, now⟩ (switchProvider fl a (typeOfKind k))).1)
      = getProviderK fl2 .auto := by
  refine ⟨?_, rfl, ?_⟩
  · cases k <;> rfl
  · unfold serviceStream
    dsimp only
    split
    · rfl
    · split <;> rfl

/-- Claim C9 counterexample: an explicitly supplied temperature of 0 is not
passed through unchanged — `options?.temperature || 0.7` treats the falsy 0
as absent and substitutes the default, and likewise maxTokens 0 becomes
1024. -/
theorem counterexample_C9_zero_not_passed :
    effectiveTemperature (some { maxTokens := none, temperature := some 0 }) = (7 : ℚ)/10
    ∧ (7 : ℚ)/10 ≠ 0
    ∧ effectiveMaxTokens (some { maxTokens := some 0, temperature := none }) = 1024 := by
  refine ⟨?_, by norm_num, by decide⟩
  simp [effectiveTemperature]

/-- Claim C9 (amended): each provider applies the defaults maxTokens=1024 and
temperature=0.7 when the corresponding field is absent from the supplied
options or when the supplied value is 0 (JavaScript falsiness of `||`); any
nonzero supplied value is passed through unchanged. -/
theorem claim_C9_numeric_defaults (mt : Option Nat) (tp : Option ℚ) :
    (effectiveMaxTokens none = 1024 ∧ effectiveTemperature none = (7 : ℚ)/10)
    ∧ (mt = none → effectiveMaxTokens (some ⟨mt, tp⟩) = 1024)
    ∧ (∀ n, mt = some n → n ≠ 0 → effectiveMaxTokens (some ⟨mt, tp⟩) = n)
    ∧ (mt = some 0 → effectiveMaxTokens (some ⟨mt, tp⟩) = 1024)
    ∧ (tp = none → effectiveTemperature (some ⟨mt, tp⟩) = (7 : ℚ)/10)
    ∧ (∀ t, tp = some t → t ≠ 0 → effectiveTemperature (some ⟨mt, tp⟩) = t)
    ∧ (tp = some 0 → effectiveTemperature (some ⟨mt, tp⟩) = (7 : ℚ)/10) := by
  refine ⟨⟨rfl, rfl⟩, ?_, ?_, ?_, ?_, ?_, ?_⟩
  · intro h
    subst h
    rfl
  · intro n h hn
    subst h
    simp [effectiveMaxTokens, hn]
  · intro h
    subst h
    rfl
  · intro h
    subst h
    rfl
  · intro t h ht
    subst h
    simp [effectiveTemperature, ht]
  · intro h
    subst h
    simp [effectiveTemperature]

/-- Claim C9 witness: a supplied maxTokens of 5 and temperature of 1/2 are
passed through unchanged. -/
theorem claim_C9_numeric_defaults_witness :
    effectiveMaxTokens (some ⟨some 5, some ((1 : ℚ)/2)⟩) = 5
    ∧ effectiveTemperature (some ⟨some 5, some ((1 : ℚ)/2)⟩) = (1 : ℚ)/2 :=
  ⟨(claim_C9_numeric_defaults (some 5) (some ((1 : ℚ)/2))).2.2.1 5 rfl (by decide),
   (claim_C9_numeric_defaults (some 5) (some ((1 : ℚ)/2))).2.2.2.2.2.1 ((1 : ℚ)/2) rfl
     (by norm_num)⟩

/-- Claim C10: whenever strict local mode is on and the local-model flag is
off, `auto` resolution picks the local provider as primary, yet that
provider's `isAvailable()` is false (it consults only the LOCAL_LLM flag) and
its `generateResponse` throws before any inference; consequently every
successful `generateResponse` of the accessor in that flag state is served by
a remote provider — its `provider` field is Anthropic's or OpenAI's name,
never the local provider's. -/
theorem claim_C10_strict_without_local (str : Bool) (oracle : Oracle) (now : Nat)
    (a : AccessorState) :
    getProviderK ⟨true, false, str⟩ .auto = .local
    ∧ isAvailable .local ⟨true, false, str⟩ = false
    ∧ providerGenerate ⟨true, false, str⟩ oracle .local = none
    ∧ ∀ r, (serviceGenerate ⟨⟨true, false, str⟩, oracle, now⟩ a).2.2 = some r →
        (r.provider = "Anthropic" ∨ r.provider = "OpenAI") ∧ r.provider ≠ "Local" := by
  refine ⟨rfl, rfl, rfl, ?_⟩
  intro r hr
  have hmem : ∃ p ∈ getProviderK (⟨true, false, str⟩ : FlagState) .auto ::
      [ProviderKind.anthropic, ProviderKind.openai],
      providerGenerate ⟨true, false, str⟩ oracle p = some r :=
    dispatchList_success_mem _ _ _ _ hr
  obtain ⟨p, hp, hgp⟩ := hmem
  have hprov : r.provider = providerName p := providerGenerate_provider hgp
  have hplist : p = .local ∨ p = .anthropic ∨ p = .openai := by
    simpa [getProviderK] using hp
  rcases hplist with hpl | hpl | hpl
  · subst hpl
    rw [show providerGenerate ⟨true, false, str⟩ oracle .local = none from rfl] at hgp
    cases hgp
  · subst hpl
    rw [hprov]
    exact ⟨Or.inl rfl, by decide⟩
  · subst hpl
    rw [hprov]
    exact ⟨Or.inr rfl, by decide⟩

/-- Claim C10 witness: with strict local mode on, the local flag off and the
Anthropic call succeeding, the accessor's result is stamped with a remote
provider name. -/
theorem claim_C10_strict_without_local_witness :
    (({ content := ['h', 'i'], model := "claude-3-5-sonnet-20240620",
        provider := "Anthropic" } : LLMResponse).provider = "Anthropic"
      ∨ ({ content := ['h', 'i'], model := "claude-3-5-sonnet-20240620",
           provider := "Anthropic" } : LLMResponse).provider = "OpenAI")
    ∧ ({ content := ['h', 'i'], model := "claude-3-5-sonnet-20240620",
         provider := "Anthropic" } : LLMResponse).provider ≠ "Local" :=
  (claim_C10_strict_without_local true
      (fun p2 => if p2 = .anthropic then some ['h', 'i'] else none) 100000
      mkService).2.2.2
    { content := ['h', 'i'], model := "claude-3-5-sonnet-20240620",
      provider := "Anthropic" }
    (by decide)

end MonVox
